import Mathlib

set_option autoImplicit false

/-!
Shallow embedding of the geo-monitor API-key authentication and
rate-limiting pipeline (src/database.py, src/auth.py, src/main.py).

Conventions of the embedding:
- SQLite rows become Lean structures; tables become lists of rows held in
  a `DB` state record; queries become list operations.
- Timestamps are seconds since an arbitrary epoch, as `Nat`; the SQL
  window `timestamp >= datetime(now, -days || ' days')` becomes
  `now <= timestamp + days * 86400`.
- The SHA-256 fingerprint `hashlib.sha256(key).hexdigest()` is kept
  abstract: functions that hash take a fingerprint function
  `fp : String -> String` as a parameter; no claim here depends on any
  property of the hash beyond equality of its outputs.
- Python `os.getenv` rate-limit configuration becomes an `Env` record.
- `async` functions are pure state transformers; an aiosqlite call that
  can raise is modelled with `Except String`.
- Python truthiness of the header value is modelled explicitly: a header
  that is absent or the empty string counts as missing.
-/

/-- Row of the `users` table (database.py, init_database). -/
structure UserRow where
  id : Nat
  email : String
  is_active : Bool
  deriving DecidableEq

/-- Row of the `api_keys` table (database.py, init_database). The source
column `key_prefix` is spelled `keyPrefix` here. -/
structure ApiKeyRow where
  id : Nat
  user_id : Nat
  key_hash : String
  keyPrefix : String
  plan_tier : String
  is_active : Bool
  deriving DecidableEq

/-- Row of the `usage_logs` table (database.py, init_database). -/
structure UsageLogRow where
  api_key_id : Nat
  endpoint : String
  timestamp : Nat
  response_time_ms : Nat
  status_code : Nat
  deriving DecidableEq

/-- The SQLite database state: the three tables the core touches. -/
structure DB where
  users : List UserRow
  api_keys : List ApiKeyRow
  usage_logs : List UsageLogRow
  deriving DecidableEq

/-- The environment-variable configuration read in get_usage_stats:
RATE_LIMIT_FREE, RATE_LIMIT_STARTER, RATE_LIMIT_PRO, RATE_LIMIT_ENTERPRISE. -/
structure Env where
  rate_limit_free : Nat
  rate_limit_starter : Nat
  rate_limit_pro : Nat
  rate_limit_enterprise : Nat
  deriving DecidableEq

/-- The default configuration: the getenv defaults "10", "500", "5000",
"999999" in database.py, get_usage_stats. -/
def defaultEnv : Env :=
  { rate_limit_free := 10, rate_limit_starter := 500,
    rate_limit_pro := 5000, rate_limit_enterprise := 999999 }

/-- The dict returned by database.verify_api_key when a key is valid:
api_key_id, user_id, plan_tier. -/
structure KeyInfo where
  api_key_id : Nat
  user_id : Nat
  plan_tier : String
  deriving DecidableEq

/-- The query of database.verify_api_key (lines 197-203): select from
api_keys joined with users on user_id, where key_hash matches and the
key row is active; fetchone returns the first such row. -/
def lookupKeyRow (db : DB) (key_hash : String) : Option (ApiKeyRow × UserRow) :=
  ((db.api_keys.filter (fun ak => ak.key_hash == key_hash && ak.is_active)).filterMap
    (fun ak => (db.users.find? (fun u => u.id == ak.user_id)).map (fun u => (ak, u)))).head?

/-- database.verify_api_key as written (lines 187-207): hash the
presented key, run the lookup, return None when there is no row or the
owning user is inactive. The function body then ends: the block that
builds the result dict is unreachable code placed after the return of
get_user_id_by_email (lines 225-229), so this function returns None on
every path. -/
def verify_api_key (fp : String → String) (db : DB) (api_key : String) : Option KeyInfo :=
  let key_hash := fp api_key
  match lookupKeyRow db key_hash with
  | none => none
  | some (_ak, u) => if !u.is_active then none else none

/-- database.verify_api_key as documented: the behaviour described by its
docstring ("Dict with api_key_id, user_id, plan_tier if valid, None
otherwise") and by the displaced dict-building block at database.py lines
225-229. -/
def verify_api_key_documented (fp : String → String) (db : DB) (api_key : String) :
    Option KeyInfo :=
  let key_hash := fp api_key
  match lookupKeyRow db key_hash with
  | none => none
  | some (ak, u) =>
    if !u.is_active then none
    else some { api_key_id := ak.id, user_id := ak.user_id, plan_tier := ak.plan_tier }

/-- database.log_usage (lines 232-239): append one usage_logs row with the
current timestamp (CURRENT_TIMESTAMP default, here the `now` argument). -/
def log_usage (db : DB) (now : Nat) (api_key_id : Nat) (endpoint : String)
    (response_time_ms : Nat) (status_code : Nat) : DB :=
  { db with usage_logs := db.usage_logs ++
      [{ api_key_id := api_key_id, endpoint := endpoint, timestamp := now,
         response_time_ms := response_time_ms, status_code := status_code }] }

/-- database.log_usage with the storage layer allowed to fail: aiosqlite
raises on a failed write and database.log_usage has no handler, so the
error propagates to the caller. `storage_ok` selects the run. -/
def log_usage_try (storage_ok : Bool) (db : DB) (now : Nat) (api_key_id : Nat)
    (endpoint : String) (response_time_ms : Nat) (status_code : Nat) : Except String DB :=
  if storage_ok then
    Except.ok (log_usage db now api_key_id endpoint response_time_ms status_code)
  else
    Except.error "OperationalError: unable to open database file"

/-- The count query of get_usage_stats (lines 252-259): usage_logs rows
for the key with timestamp inside the trailing window of `days` days. -/
def countWindow (db : DB) (now : Nat) (api_key_id : Nat) (days : Nat) : Nat :=
  (db.usage_logs.filter (fun l =>
    l.api_key_id == api_key_id && now ≤ l.timestamp + days * 86400)).length

/-- The plan-tier query of get_usage_stats (lines 262-266): plan_tier of
the api_keys row with the given id, defaulting to "free" when absent. -/
def planTierOf (db : DB) (api_key_id : Nat) : String :=
  match db.api_keys.find? (fun ak => ak.id == api_key_id) with
  | some row => row.plan_tier
  | none => "free"

/-- The rate_limits dict lookup of get_usage_stats (lines 269-276):
`rate_limits.get(plan_tier, 10)` over the four configured tiers, with the
dict-get default 10 for any other tier string. -/
def rateLimitFor (env : Env) (plan_tier : String) : Nat :=
  if plan_tier == "free" then env.rate_limit_free
  else if plan_tier == "starter" then env.rate_limit_starter
  else if plan_tier == "pro" then env.rate_limit_pro
  else if plan_tier == "enterprise" then env.rate_limit_enterprise
  else 10

/-- The dict returned by database.get_usage_stats. -/
structure UsageStats where
  total_calls : Nat
  plan_tier : String
  rate_limit : Nat
  remaining : Nat
  period_days : Nat
  deriving DecidableEq

/-- database.get_usage_stats (lines 242-285). `remaining` is
`max(0, limit - total_calls)` in the source; on `Nat` the truncated
subtraction `limit - total_calls` is exactly that value, and the explicit
`max 0` is kept to mirror the source text. -/
def get_usage_stats (env : Env) (db : DB) (now : Nat) (api_key_id : Nat) (days : Nat) :
    UsageStats :=
  let total_calls := countWindow db now api_key_id days
  let plan_tier := planTierOf db api_key_id
  let limit := rateLimitFor env plan_tier
  { total_calls := total_calls, plan_tier := plan_tier, rate_limit := limit,
    remaining := max 0 (limit - total_calls), period_days := days }

/-- The triple produced by database.generate_api_key (lines 115-125). The
secrets.token_hex randomness is abstracted: the generated triple is an
input to issuance. -/
structure GeneratedKey where
  full_key : String
  key_hash : String
  keyPrefix : String
  deriving DecidableEq

/-- AUTOINCREMENT id for a fresh api_keys row. -/
def nextApiKeyId (db : DB) : Nat :=
  (db.api_keys.foldl (fun m ak => max m ak.id) 0) + 1

/-- database.create_api_key_for_user (lines 169-184): one INSERT of the
generated key row. The api_keys.key_hash column is UNIQUE, so a
fingerprint collision makes the INSERT raise an IntegrityError; the
function has no handler and no retry, so the error propagates. -/
def create_api_key_for_user (db : DB) (gen : GeneratedKey) (user_id : Nat)
    (plan_tier : String) : Except String (DB × String) :=
  if db.api_keys.any (fun ak => ak.key_hash == gen.key_hash) then
    Except.error "UNIQUE constraint failed: api_keys.key_hash"
  else
    Except.ok
      ({ db with api_keys := db.api_keys ++
          [{ id := nextApiKeyId db, user_id := user_id, key_hash := gen.key_hash,
             keyPrefix := gen.keyPrefix, plan_tier := plan_tier, is_active := true }] },
       gen.full_key)

/-- An inbound HTTP request as the middleware sees it: the url path and
the x-api-key header (none when the header is absent). -/
structure Request where
  path : String
  api_key : Option String
  deriving DecidableEq

/-- The JSON body of the 429 rejection built in rate_limit_middleware
(auth.py lines 80-86). -/
structure RateLimitBody where
  error : String
  plan : String
  limit : Nat
  used : Nat
  resets_in : String
  deriving DecidableEq

/-- An HTTP response: status code, headers, and, for responses built by
the rate-limit middleware itself, the structured 429 body. Bodies of
downstream handlers are outside the middleware and left as `none`. -/
structure Response where
  status_code : Nat
  headers : List (String × String)
  body : Option RateLimitBody
  deriving DecidableEq

/-- Header assignment `response.headers[k] = v`: replaces any existing
value for the key and appends the pair. -/
def setHeader (hs : List (String × String)) (k v : String) : List (String × String) :=
  hs.filter (fun p => p.1 != k) ++ [(k, v)]

/-- Python str.startswith, on the character lists of the strings. -/
def pStartsWith (pre s : String) : Bool :=
  pre.data.isPrefixOf s.data

/-- The three header assignments of the admitted branch of
rate_limit_middleware (auth.py lines 96-98). -/
def attachRateLimitHeaders (r : Response) (s : UsageStats) : Response :=
  let h1 := setHeader r.headers "X-RateLimit-Limit" (toString s.rate_limit)
  let h2 := setHeader h1 "X-RateLimit-Remaining" (toString s.remaining)
  let h3 := setHeader h2 "X-RateLimit-Reset" "86400"
  { r with headers := h3 }

/-- The 429 JSONResponse of the rejected branch of rate_limit_middleware
(auth.py lines 78-92). -/
def rejectionResponse (s : UsageStats) : Response :=
  { status_code := 429,
    headers := [("X-RateLimit-Limit", toString s.rate_limit),
                ("X-RateLimit-Remaining", "0"),
                ("X-RateLimit-Reset", "86400")],
    body := some { error := "Rate limit exceeded", plan := s.plan_tier,
                   limit := s.rate_limit, used := s.total_calls,
                   resets_in := "24 hours" } }

/-- auth.rate_limit_middleware (auth.py lines 54-100). The call to
database.verify_api_key is the `resolve` parameter (the source binds it
to that function; as implemented it returns None on every input, see
verify_api_key above). A missing header and an empty header value both
take the `if not api_key` branch. -/
def rate_limit_middleware (resolve : String → Option KeyInfo) (env : Env) (db : DB)
    (now : Nat) (call_next : Request → Response) (req : Request) : Response :=
  if !(pStartsWith "/api/" req.path) then call_next req
  else if req.path == "/health" then call_next req
  else
    match req.api_key with
    | none => call_next req
    | some key =>
      if key == "" then call_next req
      else
        match resolve key with
        | none => call_next req
        | some key_info =>
          let stats := get_usage_stats env db now key_info.api_key_id 1
          if stats.remaining ≤ 0 then rejectionResponse stats
          else attachRateLimitHeaders (call_next req) stats

/-- The X-Response-Time header assignment of log_request_middleware
(auth.py line 49). -/
def addResponseTime (r : Response) (response_time_ms : Nat) : Response :=
  { r with headers := setHeader r.headers "X-Response-Time" (toString response_time_ms ++ "ms") }

/-- auth.log_request_middleware (auth.py lines 25-51), successful-storage
run: forward the request, then, when the header carries a non-empty key
that resolves, append one usage_logs row with the request path, measured
latency and final status code; finally attach X-Response-Time. -/
def log_request_middleware (resolve : String → Option KeyInfo)
    (call_next : Request → Response) (db : DB) (now : Nat)
    (response_time_ms : Nat) (req : Request) : Response × DB :=
  let response := call_next req
  let db1 :=
    match req.api_key with
    | none => db
    | some key =>
      if key == "" then db
      else
        match resolve key with
        | none => db
        | some key_info =>
          log_usage db now key_info.api_key_id req.path response_time_ms
            response.status_code
  (addResponseTime response response_time_ms, db1)

/-- auth.log_request_middleware with the storage layer allowed to fail:
the await of database.log_usage stands inside no try block, so a storage
error aborts the middleware before the response is returned. -/
def log_request_middleware_run (storage_ok : Bool) (resolve : String → Option KeyInfo)
    (call_next : Request → Response) (db : DB) (now : Nat)
    (response_time_ms : Nat) (req : Request) : Except String (Response × DB) :=
  let response := call_next req
  match req.api_key with
  | none => Except.ok (addResponseTime response response_time_ms, db)
  | some key =>
    if key == "" then Except.ok (addResponseTime response response_time_ms, db)
    else
      match resolve key with
      | none => Except.ok (addResponseTime response response_time_ms, db)
      | some key_info =>
        match log_usage_try storage_ok db now key_info.api_key_id req.path
            response_time_ms response.status_code with
        | Except.error e => Except.error e
        | Except.ok db1 => Except.ok (addResponseTime response response_time_ms, db1)

/-- The hardcoded demo credential of the rank-monitor module
(main.py line 27). -/
def DEMO_API_KEY : String := "demo-key-2024"

namespace MainApp

/-- main.verify_api_key (main.py lines 46-49): the FastAPI dependency of
the rank-monitor demo endpoints. The x_api_key header defaults to None;
any value other than the constant DEMO_API_KEY raises HTTPException 401,
otherwise the key is returned. It reads no database. -/
def verify_api_key (x_api_key : Option String) : Except Nat String :=
  match x_api_key with
  | none => Except.error 401
  | some k => if k != DEMO_API_KEY then Except.error 401 else Except.ok k

end MainApp

/-!
Concrete fixtures used by the theorems below: a database holding the demo
account and demo credential that init_database seeds, a concrete stand-in
for the SHA-256 fingerprint, and a resolution function giving the demo
credential the info tuple its docstring describes.
-/

/-- A concrete fingerprint function standing in for sha256 hexdigest. -/
def fpDemo : String → String := fun s => s ++ "#sha256"

/-- The demo user seeded by init_database (database.py lines 71-74). -/
def demoUser : UserRow :=
  { id := 1, email := "demo@example.com", is_active := true }

/-- The demo api_keys row seeded by init_database (lines 75-78), its
key_hash the fingerprint of "demo-key-2024". -/
def demoKeyRow : ApiKeyRow :=
  { id := 1, user_id := 1, key_hash := fpDemo DEMO_API_KEY, keyPrefix := "demo-",
    plan_tier := "free", is_active := true }

/-- Database state right after init_database: demo user, demo key, no
usage yet. -/
def demoDB : DB :=
  { users := [demoUser], api_keys := [demoKeyRow], usage_logs := [] }

/-- The info tuple the demo credential should resolve to. -/
def demoInfo : KeyInfo := { api_key_id := 1, user_id := 1, plan_tier := "free" }

/-- A resolution function under which exactly the demo token resolves. -/
def resolveDemo : String → Option KeyInfo :=
  fun k => if k == DEMO_API_KEY then some demoInfo else none

/-- A downstream handler returning a bare 200. -/
def handler200 : Request → Response :=
  fun _ => { status_code := 200, headers := [], body := none }

/-- A metered request: an /api/ path with the demo key presented. -/
def apiReq : Request := { path := "/api/locations", api_key := some DEMO_API_KEY }

/-- An exempt-path request (the landing page) with the demo key presented. -/
def rootReq : Request := { path := "/", api_key := some DEMO_API_KEY }

/-- One logged call of the demo key inside the current window. -/
def logRow : UsageLogRow :=
  { api_key_id := 1, endpoint := "/api/locations", timestamp := 0,
    response_time_ms := 5, status_code := 200 }

/-- The demo database after ten logged calls inside the window: the free
ceiling of the default configuration is exhausted. -/
def tenLogsDB : DB := { demoDB with usage_logs := List.replicate 10 logRow }

/-- A configuration whose free ceiling is 20 instead of the default 10. -/
def env20 : Env :=
  { rate_limit_free := 20, rate_limit_starter := 500,
    rate_limit_pro := 5000, rate_limit_enterprise := 999999 }

/-- An api_keys row whose plan tier is outside the known enumeration. -/
def platinumKeyRow : ApiKeyRow :=
  { id := 2, user_id := 1, key_hash := "ph", keyPrefix := "plat-",
    plan_tier := "platinum", is_active := true }

/-- Database holding the unknown-tier key. -/
def platinumDB : DB :=
  { users := [demoUser], api_keys := [platinumKeyRow], usage_logs := [] }

/-- A freshly generated key whose fingerprint collides with the stored
fingerprint of the demo credential. -/
def genDup : GeneratedKey :=
  { full_key := "ab12cd34-ffff", key_hash := fpDemo DEMO_API_KEY, keyPrefix := "ab12cd34" }

/-!
Shared lemmas about header assignment and the middleware branch
structure, used by several claim theorems below.
-/

theorem setHeader_mem_self (hs : List (String × String)) (k v : String) :
    (k, v) ∈ setHeader hs k v := by
  unfold setHeader
  exact List.mem_append_right _ (List.mem_singleton.mpr rfl)

theorem setHeader_mem_of_ne (hs : List (String × String)) (k v k' v' : String)
    (h : (k, v) ∈ hs) (hk : k ≠ k') : (k, v) ∈ setHeader hs k' v' := by
  unfold setHeader
  refine List.mem_append_left _ (List.mem_filter.mpr ⟨h, ?_⟩)
  simpa using hk

theorem attach_mem_remaining (r : Response) (s : UsageStats) :
    ("X-RateLimit-Remaining", toString s.remaining) ∈ (attachRateLimitHeaders r s).headers := by
  unfold attachRateLimitHeaders
  exact setHeader_mem_of_ne _ _ _ _ _ (setHeader_mem_self _ _ _) (by decide)

theorem attach_mem_limit (r : Response) (s : UsageStats) :
    ("X-RateLimit-Limit", toString s.rate_limit) ∈ (attachRateLimitHeaders r s).headers := by
  unfold attachRateLimitHeaders
  refine setHeader_mem_of_ne _ _ _ _ _ ?_ (by decide)
  exact setHeader_mem_of_ne _ _ _ _ _ (setHeader_mem_self _ _ _) (by decide)

theorem rate_limit_middleware_metered (resolve : String → Option KeyInfo) (env : Env)
    (db : DB) (now : Nat) (call_next : Request → Response) (req : Request)
    (key : String) (key_info : KeyInfo)
    (hpath : pStartsWith "/api/" req.path = true)
    (hkey : req.api_key = some key) (hne : (key == "") = false)
    (hres : resolve key = some key_info) :
    rate_limit_middleware resolve env db now call_next req =
      (if (get_usage_stats env db now key_info.api_key_id 1).remaining ≤ 0 then
        rejectionResponse (get_usage_stats env db now key_info.api_key_id 1)
      else
        attachRateLimitHeaders (call_next req)
          (get_usage_stats env db now key_info.api_key_id 1)) := by
  have hh : (req.path == "/health") = false := by
    cases hb : req.path == "/health" with
    | false => rfl
    | true =>
      have hb2 := eq_of_beq hb
      rw [hb2] at hpath
      exact absurd hpath (by decide)
  unfold rate_limit_middleware
  rw [hpath, hkey]
  simp only [Bool.not_true, Bool.false_eq_true, if_false, hh, hne, hres]

theorem rate_limit_middleware_unmetered (resolve : String → Option KeyInfo) (env : Env)
    (db : DB) (now : Nat) (call_next : Request → Response) (req : Request)
    (h : pStartsWith "/api/" req.path = false ∨ req.path = "/health" ∨
         req.api_key = none ∨ req.api_key = some "" ∨
         (∀ k : String, req.api_key = some k → resolve k = none)) :
    rate_limit_middleware resolve env db now call_next req = call_next req := by
  unfold rate_limit_middleware
  rcases h with h | h | h | h | h
  · simp [h]
  · rw [h]
    simp [show pStartsWith "/api/" "/health" = false from by decide]
  · simp [h]
  · simp [h]
  · cases hk : req.api_key with
    | none => simp [hk]
    | some key => simp [hk, h key hk]

/-- C1: for every credential token whose stored fingerprint matches an
active api_keys row owned by an active user, verify_api_key should return
the info tuple; as written it returns None for every input (its result
dict is unreachable code displaced into get_user_id_by_email), shown here
both in general and on the seeded demo credential, where the documented
behaviour yields the tuple (1, 1, "free"). -/
theorem C1_verify_api_key_always_none :
    (∀ (fp : String → String) (db : DB) (k : String), verify_api_key fp db k = none) ∧
    lookupKeyRow demoDB (fpDemo DEMO_API_KEY) = some (demoKeyRow, demoUser) ∧
    demoKeyRow.is_active = true ∧ demoUser.is_active = true ∧
    verify_api_key fpDemo demoDB DEMO_API_KEY = none ∧
    verify_api_key_documented fpDemo demoDB DEMO_API_KEY = some demoInfo := by
  refine ⟨?_, by decide, by decide, by decide, by decide, by decide⟩
  intro fp db k
  show (match lookupKeyRow db (fp k) with
        | none => none
        | some (_ak, u) => if !u.is_active then none else none) = (none : Option KeyInfo)
  cases lookupKeyRow db (fp k) with
  | none => rfl
  | some p =>
    obtain ⟨ak, u⟩ := p
    obtain ⟨uid, uemail, uact⟩ := u
    cases uact <;> rfl

/-- C10: the rank-monitor dependency accepts exactly the hardcoded
constant token "demo-key-2024"; every other header value, and an absent
header, raises HTTP 401. The dependency is a function of the header value
alone: it consults no database state. -/
theorem C10_demo_key_gate (x : Option String) :
    (MainApp.verify_api_key x = Except.ok DEMO_API_KEY ↔ x = some DEMO_API_KEY) ∧
    (x ≠ some DEMO_API_KEY → MainApp.verify_api_key x = Except.error 401) := by
  constructor
  · constructor
    · intro h
      cases x with
      | none => exact absurd h (by simp [MainApp.verify_api_key])
      | some k =>
        by_cases hk : k = DEMO_API_KEY
        · rw [hk]
        · have hb : (k != DEMO_API_KEY) = true := bne_iff_ne.mpr hk
          simp [MainApp.verify_api_key, hb] at h
    · intro h
      subst h
      simp [MainApp.verify_api_key]
  · intro hne
    cases x with
    | none => rfl
    | some k =>
      have hk : k ≠ DEMO_API_KEY := fun hq => hne (by rw [hq])
      simp [MainApp.verify_api_key, bne_iff_ne.mpr hk]

/-- C10 witness: a foreign token and the absent header are rejected with
401, and the constant itself is accepted. -/
theorem C10_demo_key_gate_witness :
    MainApp.verify_api_key (some "not-the-demo-key") = Except.error 401 ∧
    MainApp.verify_api_key none = Except.error 401 ∧
    MainApp.verify_api_key (some DEMO_API_KEY) = Except.ok DEMO_API_KEY := by
  refine ⟨(C10_demo_key_gate (some "not-the-demo-key")).2 (by decide),
          (C10_demo_key_gate none).2 (by decide),
          (C10_demo_key_gate (some DEMO_API_KEY)).1.mpr rfl⟩

/-- C2 counterexample: a request to the exempt path "/" (not an /api/
path, hence unmetered) that presents the resolvable demo key makes
log_request_middleware append one usage record to the empty log, though
the claim says unmetered requests append none. -/
theorem C2_exempt_path_is_logged :
    pStartsWith "/api/" rootReq.path = false ∧
    demoDB.usage_logs.length = 0 ∧
    ((log_request_middleware resolveDemo handler200 demoDB 0 5 rootReq).2.usage_logs).length = 1 := by
  decide

/-- C2 amended: the logging middleware appends exactly one usage record
for every request whose x-api-key header is present, non-empty and
resolvable, regardless of path and of the response outcome, and appends
none for requests with an absent, empty or unresolvable key; the request
path does not gate logging. -/
theorem C2_one_record_iff_key_resolvable (resolve : String → Option KeyInfo)
    (call_next : Request → Response) (db : DB) (now rt : Nat) (req : Request) :
    ((log_request_middleware resolve call_next db now rt req).2.usage_logs).length =
      db.usage_logs.length +
        (match req.api_key with
         | none => 0
         | some key => if key != "" && (resolve key).isSome then 1 else 0) := by
  unfold log_request_middleware
  cases hk : req.api_key with
  | none => simp
  | some key =>
    cases hke : key == "" with
    | true => simp [hke, bne]
    | false =>
      cases hr : resolve key with
      | none => simp [hke, hr, bne]
      | some key_info => simp [hke, hr, bne, log_usage]

/-- C9: the rate-limit middleware forwards the request unchanged to the
downstream handler whenever the path is exempt (not an /api/ path, or the
health-check path), the key header is absent or empty, or the presented
key does not resolve; conversely, whenever it does anything other than
forwarding, the path was an /api/ path and a non-empty resolvable key was
presented. -/
theorem C9_unmetered_forwarding (resolve : String → Option KeyInfo) (env : Env)
    (db : DB) (now : Nat) (call_next : Request → Response) (req : Request) :
    (pStartsWith "/api/" req.path = false ∨ req.path = "/health" ∨
       req.api_key = none ∨ req.api_key = some "" ∨
       (∀ k : String, req.api_key = some k → resolve k = none) →
      rate_limit_middleware resolve env db now call_next req = call_next req) ∧
    (rate_limit_middleware resolve env db now call_next req ≠ call_next req →
      pStartsWith "/api/" req.path = true ∧
      ∃ (k : String) (key_info : KeyInfo),
        req.api_key = some k ∧ (k == "") = false ∧ resolve k = some key_info) := by
  constructor
  · exact rate_limit_middleware_unmetered resolve env db now call_next req
  · intro hne
    by_cases hp : pStartsWith "/api/" req.path = true
    · refine ⟨hp, ?_⟩
      cases hk : req.api_key with
      | none =>
        exact absurd (rate_limit_middleware_unmetered resolve env db now call_next req
          (Or.inr (Or.inr (Or.inl hk)))) hne
      | some key =>
        cases hke : key == "" with
        | true =>
          rw [eq_of_beq hke] at hk
          exact absurd (rate_limit_middleware_unmetered resolve env db now call_next req
            (Or.inr (Or.inr (Or.inr (Or.inl hk))))) hne
        | false =>
          cases hr : resolve key with
          | none =>
            have hall : ∀ k : String, req.api_key = some k → resolve k = none := by
              intro k2 hk2
              rw [hk] at hk2
              injection hk2 with hkk
              rw [← hkk]
              exact hr
            exact absurd (rate_limit_middleware_unmetered resolve env db now call_next req
              (Or.inr (Or.inr (Or.inr (Or.inr hall))))) hne
          | some key_info => exact ⟨key, key_info, rfl, hke, hr⟩
    · have hp2 : pStartsWith "/api/" req.path = false := by
        cases hpp : pStartsWith "/api/" req.path with
        | false => rfl
        | true => exact absurd hpp hp
      exact absurd (rate_limit_middleware_unmetered resolve env db now call_next req
        (Or.inl hp2)) hne

/-- C9 witness: the landing-page request with the demo key is forwarded
unchanged, and a metered request with an unresolvable key is forwarded
unchanged. -/
theorem C9_unmetered_forwarding_witness :
    rate_limit_middleware resolveDemo defaultEnv demoDB 0 handler200 rootReq =
      handler200 rootReq ∧
    rate_limit_middleware (fun _ => none) defaultEnv demoDB 0 handler200 apiReq =
      handler200 apiReq := by
  refine ⟨(C9_unmetered_forwarding resolveDemo defaultEnv demoDB 0 handler200 rootReq).1
            (Or.inl (by decide)), ?_⟩
  exact (C9_unmetered_forwarding (fun _ => none) defaultEnv demoDB 0 handler200 apiReq).1
    (Or.inr (Or.inr (Or.inr (Or.inr (fun k _ => rfl)))))

theorem get_usage_stats_total_calls (env : Env) (db : DB) (now api_key_id days : Nat) :
    (get_usage_stats env db now api_key_id days).total_calls =
      countWindow db now api_key_id days := rfl

theorem get_usage_stats_rate_limit (env : Env) (db : DB) (now api_key_id days : Nat) :
    (get_usage_stats env db now api_key_id days).rate_limit =
      rateLimitFor env (planTierOf db api_key_id) := rfl

theorem get_usage_stats_remaining (env : Env) (db : DB) (now api_key_id days : Nat) :
    (get_usage_stats env db now api_key_id days).remaining =
      rateLimitFor env (planTierOf db api_key_id) - countWindow db now api_key_id days := by
  show max 0 (rateLimitFor env (planTierOf db api_key_id) - countWindow db now api_key_id days) =
    rateLimitFor env (planTierOf db api_key_id) - countWindow db now api_key_id days
  exact Nat.zero_max _

/-- C3: the quota evaluation yields remaining = max(0, ceiling minus
window count) as an integer identity, the middleware admits exactly when
remaining is positive (forwarding with rate headers attached) and rejects
with the 429 response when remaining is zero; hence the request seen at
count = ceiling - 1 is the last admitted one and the request seen at
count = ceiling is the first rejected one. -/
theorem C3_quota_evaluation (resolve : String → Option KeyInfo) (env : Env) (db : DB)
    (now : Nat) (call_next : Request → Response) (req : Request)
    (key : String) (key_info : KeyInfo) (s : UsageStats)
    (hpath : pStartsWith "/api/" req.path = true)
    (hkey : req.api_key = some key) (hne : (key == "") = false)
    (hres : resolve key = some key_info)
    (hs : s = get_usage_stats env db now key_info.api_key_id 1) :
    (s.remaining : Int) = max 0 ((s.rate_limit : Int) - (s.total_calls : Int)) ∧
    (0 < s.remaining →
      rate_limit_middleware resolve env db now call_next req =
        attachRateLimitHeaders (call_next req) s) ∧
    (s.remaining = 0 →
      rate_limit_middleware resolve env db now call_next req = rejectionResponse s) ∧
    (s.total_calls + 1 = s.rate_limit → 0 < s.remaining) ∧
    (s.total_calls = s.rate_limit → s.remaining = 0) := by
  have hmw := rate_limit_middleware_metered resolve env db now call_next req key key_info
    hpath hkey hne hres
  rw [← hs] at hmw
  have hrem := hs ▸ get_usage_stats_remaining env db now key_info.api_key_id 1
  have hlim := hs ▸ get_usage_stats_rate_limit env db now key_info.api_key_id 1
  have htot := hs ▸ get_usage_stats_total_calls env db now key_info.api_key_id 1
  refine ⟨?_, ?_, ?_, ?_, ?_⟩
  · rw [hrem, hlim, htot]
    omega
  · intro h0
    rw [hmw, if_neg (by omega)]
  · intro h0
    rw [hmw, if_pos (by omega)]
  · intro h
    omega
  · intro h
    omega

/-- C3 witness: the demo key on the default free configuration with an
empty usage log has remaining 10 and the metered request is admitted with
headers attached. -/
theorem C3_quota_evaluation_witness :
    ((get_usage_stats defaultEnv demoDB 0 1 1).remaining : Int) =
      max 0 (((get_usage_stats defaultEnv demoDB 0 1 1).rate_limit : Int) -
        ((get_usage_stats defaultEnv demoDB 0 1 1).total_calls : Int)) ∧
    (0 < (get_usage_stats defaultEnv demoDB 0 1 1).remaining →
      rate_limit_middleware resolveDemo defaultEnv demoDB 0 handler200 apiReq =
        attachRateLimitHeaders (handler200 apiReq) (get_usage_stats defaultEnv demoDB 0 1 1)) ∧
    ((get_usage_stats defaultEnv demoDB 0 1 1).remaining = 0 →
      rate_limit_middleware resolveDemo defaultEnv demoDB 0 handler200 apiReq =
        rejectionResponse (get_usage_stats defaultEnv demoDB 0 1 1)) ∧
    ((get_usage_stats defaultEnv demoDB 0 1 1).total_calls + 1 =
        (get_usage_stats defaultEnv demoDB 0 1 1).rate_limit →
      0 < (get_usage_stats defaultEnv demoDB 0 1 1).remaining) ∧
    ((get_usage_stats defaultEnv demoDB 0 1 1).total_calls =
        (get_usage_stats defaultEnv demoDB 0 1 1).rate_limit →
      (get_usage_stats defaultEnv demoDB 0 1 1).remaining = 0) :=
  C3_quota_evaluation resolveDemo defaultEnv demoDB 0 handler200 apiReq DEMO_API_KEY demoInfo
    (get_usage_stats defaultEnv demoDB 0 1 1) (by decide) rfl (by decide) (by decide) rfl

/-- C4 counterexample: with a fresh free-tier key of ceiling 10 (the
seeded demo state, no calls logged, remaining 10), the first admitted
request carries the remaining header value "10", not the
remaining-after-this-call value "9" the claim requires. -/
theorem C4_remaining_header_not_decremented :
    (get_usage_stats defaultEnv demoDB 0 1 1).remaining = 10 ∧
    ("X-RateLimit-Remaining", "9") ∉
      (rate_limit_middleware resolveDemo defaultEnv demoDB 0 handler200 apiReq).headers ∧
    ("X-RateLimit-Remaining", "10") ∈
      (rate_limit_middleware resolveDemo defaultEnv demoDB 0 handler200 apiReq).headers := by
  decide

/-- C4 amended: on every admitted metered request the response carries
headers reporting the ceiling and the remaining allowance BEFORE the
current call (no decrement is applied); so with a free-tier key of
ceiling 10 the ten admitted requests see the remaining header count down
10,9,...,1, and the request seen with ten calls already in the window
gets the 429 with limit 10 and used 10. -/
theorem C4_pre_call_remaining_headers (resolve : String → Option KeyInfo) (env : Env)
    (db : DB) (now : Nat) (call_next : Request → Response) (req : Request)
    (key : String) (key_info : KeyInfo) (s : UsageStats)
    (hpath : pStartsWith "/api/" req.path = true)
    (hkey : req.api_key = some key) (hne : (key == "") = false)
    (hres : resolve key = some key_info)
    (hs : s = get_usage_stats env db now key_info.api_key_id 1) :
    (0 < s.remaining →
      ("X-RateLimit-Limit", toString s.rate_limit) ∈
        (rate_limit_middleware resolve env db now call_next req).headers ∧
      ("X-RateLimit-Remaining", toString s.remaining) ∈
        (rate_limit_middleware resolve env db now call_next req).headers) ∧
    (s.total_calls < s.rate_limit →
      ("X-RateLimit-Remaining", toString (s.rate_limit - s.total_calls)) ∈
        (rate_limit_middleware resolve env db now call_next req).headers) ∧
    (s.rate_limit ≤ s.total_calls →
      rate_limit_middleware resolve env db now call_next req = rejectionResponse s ∧
      (rejectionResponse s).status_code = 429 ∧
      (rejectionResponse s).body =
        some { error := "Rate limit exceeded", plan := s.plan_tier, limit := s.rate_limit,
               used := s.total_calls, resets_in := "24 hours" }) := by
  have hmw := rate_limit_middleware_metered resolve env db now call_next req key key_info
    hpath hkey hne hres
  rw [← hs] at hmw
  have hrem := hs ▸ get_usage_stats_remaining env db now key_info.api_key_id 1
  have hlim := hs ▸ get_usage_stats_rate_limit env db now key_info.api_key_id 1
  have htot := hs ▸ get_usage_stats_total_calls env db now key_info.api_key_id 1
  refine ⟨?_, ?_, ?_⟩
  · intro h0
    rw [hmw, if_neg (by omega)]
    exact ⟨attach_mem_limit (call_next req) s, attach_mem_remaining (call_next req) s⟩
  · intro hlt
    have hvals : s.remaining = s.rate_limit - s.total_calls := by omega
    rw [hmw, if_neg (by omega), ← hvals]
    exact attach_mem_remaining (call_next req) s
  · intro hge
    exact ⟨by rw [hmw, if_pos (by omega)], rfl, rfl⟩

/-- C4 witness: the demo free-tier state with an empty window shows the
admitted-branch header facts and the count-down value 10 - 0. -/
theorem C4_pre_call_remaining_headers_witness :
    (0 < (get_usage_stats defaultEnv demoDB 0 1 1).remaining →
      ("X-RateLimit-Limit", toString (get_usage_stats defaultEnv demoDB 0 1 1).rate_limit) ∈
        (rate_limit_middleware resolveDemo defaultEnv demoDB 0 handler200 apiReq).headers ∧
      ("X-RateLimit-Remaining", toString (get_usage_stats defaultEnv demoDB 0 1 1).remaining) ∈
        (rate_limit_middleware resolveDemo defaultEnv demoDB 0 handler200 apiReq).headers) ∧
    ((get_usage_stats defaultEnv demoDB 0 1 1).total_calls <
        (get_usage_stats defaultEnv demoDB 0 1 1).rate_limit →
      ("X-RateLimit-Remaining",
        toString ((get_usage_stats defaultEnv demoDB 0 1 1).rate_limit -
          (get_usage_stats defaultEnv demoDB 0 1 1).total_calls)) ∈
        (rate_limit_middleware resolveDemo defaultEnv demoDB 0 handler200 apiReq).headers) ∧
    ((get_usage_stats defaultEnv demoDB 0 1 1).rate_limit ≤
        (get_usage_stats defaultEnv demoDB 0 1 1).total_calls →
      rate_limit_middleware resolveDemo defaultEnv demoDB 0 handler200 apiReq =
        rejectionResponse (get_usage_stats defaultEnv demoDB 0 1 1) ∧
      (rejectionResponse (get_usage_stats defaultEnv demoDB 0 1 1)).status_code = 429 ∧
      (rejectionResponse (get_usage_stats defaultEnv demoDB 0 1 1)).body =
        some { error := "Rate limit exceeded",
               plan := (get_usage_stats defaultEnv demoDB 0 1 1).plan_tier,
               limit := (get_usage_stats defaultEnv demoDB 0 1 1).rate_limit,
               used := (get_usage_stats defaultEnv demoDB 0 1 1).total_calls,
               resets_in := "24 hours" }) :=
  C4_pre_call_remaining_headers resolveDemo defaultEnv demoDB 0 handler200 apiReq
    DEMO_API_KEY demoInfo (get_usage_stats defaultEnv demoDB 0 1 1)
    (by decide) rfl (by decide) (by decide) rfl

/-- C5: on a metered request whose quota is exhausted the middleware
returns the fixed 429 JSONResponse carrying the error label, plan tier,
ceiling, consumed count and reset hint, with the remaining=0 header, and
the result does not depend on the downstream handler (it is never
invoked). -/
theorem C5_rejection_short_circuit (resolve : String → Option KeyInfo) (env : Env)
    (db : DB) (now : Nat) (call_next : Request → Response) (req : Request)
    (key : String) (key_info : KeyInfo) (s : UsageStats)
    (hpath : pStartsWith "/api/" req.path = true)
    (hkey : req.api_key = some key) (hne : (key == "") = false)
    (hres : resolve key = some key_info)
    (hs : s = get_usage_stats env db now key_info.api_key_id 1)
    (hrem : s.remaining = 0) :
    rate_limit_middleware resolve env db now call_next req = rejectionResponse s ∧
    (rejectionResponse s).status_code = 429 ∧
    (rejectionResponse s).body =
      some { error := "Rate limit exceeded", plan := s.plan_tier, limit := s.rate_limit,
             used := s.total_calls, resets_in := "24 hours" } ∧
    ("X-RateLimit-Remaining", "0") ∈ (rejectionResponse s).headers ∧
    rate_limit_middleware resolve env db now call_next req =
      rate_limit_middleware resolve env db now handler200 req := by
  have hmw := rate_limit_middleware_metered resolve env db now call_next req key key_info
    hpath hkey hne hres
  have hmw2 := rate_limit_middleware_metered resolve env db now handler200 req key key_info
    hpath hkey hne hres
  rw [← hs] at hmw hmw2
  have h429 : rate_limit_middleware resolve env db now call_next req = rejectionResponse s := by
    rw [hmw, if_pos (by omega)]
  have h429b : rate_limit_middleware resolve env db now handler200 req = rejectionResponse s := by
    rw [hmw2, if_pos (by omega)]
  refine ⟨h429, rfl, rfl, ?_, by rw [h429, h429b]⟩
  show ("X-RateLimit-Remaining", "0") ∈
    [("X-RateLimit-Limit", toString s.rate_limit), ("X-RateLimit-Remaining", "0"),
     ("X-RateLimit-Reset", "86400")]
  exact List.mem_cons_of_mem _ (List.mem_cons_self _ _)

/-- C5 witness: with ten calls already in the window the demo free-tier
key is rejected with the structured 429. -/
theorem C5_rejection_short_circuit_witness :
    rate_limit_middleware resolveDemo defaultEnv tenLogsDB 0 handler200 apiReq =
      rejectionResponse (get_usage_stats defaultEnv tenLogsDB 0 1 1) ∧
    (rejectionResponse (get_usage_stats defaultEnv tenLogsDB 0 1 1)).status_code = 429 ∧
    (rejectionResponse (get_usage_stats defaultEnv tenLogsDB 0 1 1)).body =
      some { error := "Rate limit exceeded",
             plan := (get_usage_stats defaultEnv tenLogsDB 0 1 1).plan_tier,
             limit := (get_usage_stats defaultEnv tenLogsDB 0 1 1).rate_limit,
             used := (get_usage_stats defaultEnv tenLogsDB 0 1 1).total_calls,
             resets_in := "24 hours" } ∧
    ("X-RateLimit-Remaining", "0") ∈
      (rejectionResponse (get_usage_stats defaultEnv tenLogsDB 0 1 1)).headers ∧
    rate_limit_middleware resolveDemo defaultEnv tenLogsDB 0 handler200 apiReq =
      rate_limit_middleware resolveDemo defaultEnv tenLogsDB 0 handler200 apiReq :=
  C5_rejection_short_circuit resolveDemo defaultEnv tenLogsDB 0 handler200 apiReq
    DEMO_API_KEY demoInfo (get_usage_stats defaultEnv tenLogsDB 0 1 1)
    (by decide) rfl (by decide) (by decide) rfl (by decide)

/-- C6 counterexample: under a configuration whose free ceiling is 20, a
key of the unknown tier "platinum" is evaluated with ceiling 10 (the
hard-coded dict-get default), not the free ceiling 20 the claim
requires. -/
theorem C6_configured_free_ceiling_ignored :
    env20.rate_limit_free = 20 ∧
    planTierOf platinumDB 2 = "platinum" ∧
    (get_usage_stats env20 platinumDB 0 2 1).rate_limit = 10 ∧
    (get_usage_stats env20 platinumDB 0 2 1).rate_limit ≠ env20.rate_limit_free := by
  decide

/-- C6 amended: for every plan-tier value outside the known enumeration
the quota ceiling used in evaluation is the hard-coded constant 10 (the
DEFAULT free ceiling), for every configuration of the per-tier limits;
it coincides with the configured free ceiling only when RATE_LIMIT_FREE
is 10. -/
theorem C6_unknown_tier_constant_ten (env : Env) (db : DB) (now api_key_id days : Nat)
    (t : String) (ht : planTierOf db api_key_id = t)
    (h1 : t ≠ "free") (h2 : t ≠ "starter") (h3 : t ≠ "pro") (h4 : t ≠ "enterprise") :
    rateLimitFor env t = 10 ∧
    (get_usage_stats env db now api_key_id days).rate_limit = 10 := by
  have hr : rateLimitFor env t = 10 := by
    unfold rateLimitFor
    rw [if_neg (by simpa using h1), if_neg (by simpa using h2),
        if_neg (by simpa using h3), if_neg (by simpa using h4)]
  exact ⟨hr, by rw [get_usage_stats_rate_limit, ht, hr]⟩

/-- C6 witness: the unknown tier "platinum" under the free-ceiling-20
configuration still evaluates with ceiling 10. -/
theorem C6_unknown_tier_constant_ten_witness :
    rateLimitFor env20 "platinum" = 10 ∧
    (get_usage_stats env20 platinumDB 0 2 1).rate_limit = 10 :=
  C6_unknown_tier_constant_ten env20 platinumDB 0 2 1 "platinum"
    (by decide) (by decide) (by decide) (by decide) (by decide)

/-- C7 counterexample: on a metered request for the demo key, a failing
usage-record append makes the logging middleware raise instead of
returning the already-computed response; the successful-storage run of
the same request shows the response that is lost. -/
theorem C7_storage_error_fails_request_demo :
    log_request_middleware_run false resolveDemo handler200 demoDB 0 5 apiReq =
      Except.error "OperationalError: unable to open database file" ∧
    log_request_middleware_run true resolveDemo handler200 demoDB 0 5 apiReq =
      Except.ok (addResponseTime (handler200 apiReq) 5,
        log_usage demoDB 0 1 "/api/locations" 5 200) :=
  ⟨rfl, rfl⟩

/-- C7 amended: the usage-record append stands inside no handler, so when
it fails the error propagates and the enclosing request fails (the
response already determined is not returned); the write is attempted
exactly once and not retried, and on success the determined response is
returned with exactly one record appended. -/
theorem C7_write_failure_propagates (resolve : String → Option KeyInfo)
    (call_next : Request → Response) (db : DB) (now rt : Nat) (req : Request)
    (key : String) (key_info : KeyInfo)
    (hkey : req.api_key = some key) (hne : (key == "") = false)
    (hres : resolve key = some key_info) :
    log_request_middleware_run false resolve call_next db now rt req =
      Except.error "OperationalError: unable to open database file" ∧
    log_request_middleware_run true resolve call_next db now rt req =
      Except.ok (addResponseTime (call_next req) rt,
        log_usage db now key_info.api_key_id req.path rt (call_next req).status_code) := by
  unfold log_request_middleware_run log_usage_try
  rw [hkey]
  simp [hne, hres]

/-- C7 witness: the demo metered request with failing storage is an
error; with working storage it is the response plus one record. -/
theorem C7_write_failure_propagates_witness :
    log_request_middleware_run false resolveDemo handler200 demoDB 7 5 apiReq =
      Except.error "OperationalError: unable to open database file" ∧
    log_request_middleware_run true resolveDemo handler200 demoDB 7 5 apiReq =
      Except.ok (addResponseTime (handler200 apiReq) 5,
        log_usage demoDB 7 demoInfo.api_key_id apiReq.path 5 (handler200 apiReq).status_code) :=
  C7_write_failure_propagates resolveDemo handler200 demoDB 7 5 apiReq DEMO_API_KEY demoInfo
    rfl (by decide) (by decide)

/-- C8 counterexample: issuing a key whose fresh fingerprint collides
with the stored fingerprint of the demo credential makes the INSERT fail
with the uniqueness violation, which propagates to the caller: there is
no regeneration and no retry. -/
theorem C8_collision_error_propagates_demo :
    demoKeyRow.key_hash = genDup.key_hash ∧
    create_api_key_for_user demoDB genDup 1 "free" =
      Except.error "UNIQUE constraint failed: api_keys.key_hash" :=
  ⟨rfl, rfl⟩

/-- C8 amended: whenever the freshly generated fingerprint collides with
any stored fingerprint, create_api_key_for_user surfaces the uniqueness
violation to the caller as a storage integrity error on the single
attempted INSERT; it performs no regeneration and no retry. -/
theorem C8_collision_not_retried (db : DB) (gen : GeneratedKey) (user_id : Nat)
    (plan_tier : String)
    (h : db.api_keys.any (fun ak => ak.key_hash == gen.key_hash) = true) :
    create_api_key_for_user db gen user_id plan_tier =
      Except.error "UNIQUE constraint failed: api_keys.key_hash" := by
  unfold create_api_key_for_user
  rw [if_pos h]

/-- C8 witness: the colliding generated key against the seeded demo
state. -/
theorem C8_collision_not_retried_witness :
    create_api_key_for_user demoDB genDup 1 "free" =
      Except.error "UNIQUE constraint failed: api_keys.key_hash" :=
  C8_collision_not_retried demoDB genDup 1 "free" (by decide)
